import Mathlib

/-!
Verification of the filter-and-aggregate pipeline of the restaurant-tax
dashboard (src/app.py).  The dataframe rows, the sidebar filter, the KPI
aggregates, the group-by-mean chart data, the top-N ranking, the loader
and the CSV export are embedded as executable Lean definitions below;
the theorems at the end of the file settle the specification claims
about them.

Modelling conventions:
* a pandas cell that is NaN (missing) is `none`; `pd.to_numeric(errors=
  coerce)` therefore lands in `Option ℚ`;
* machine floats are modelled by exact rationals;
* pandas sorts (`sort_values`, `nlargest(keep=first)`, `groupby(sort=
  True)`) are modelled by a stable insertion sort with missing values
  ordered below every number (`na_position=last` in a descending sort);
  `nlargest` forces a stable kind for `keep=first`, and the default
  `sort_values` kind degenerates to a stable insertion sort on the small
  arrays produced here.
-/

namespace Dashboard

/-- One row of the loaded dataframe after numeric coercion (src/app.py,
`load_data`): the three designated numeric columns hold `none` where the
raw cell was missing or non-numeric; string columns hold `none` for a
missing cell. -/
structure Record where
  nama : Option String
  kategori : Option String
  segmentasi : Option String
  omset : Option ℚ
  pajak : Option ℚ
  efektivitas : Option ℚ
  labelRisiko : Option String
deriving DecidableEq, Repr

/-- The ordering key pandas uses for a numeric column in a descending
sort with `na_position=last`: a missing value compares below every
number. -/
def wbQ (x : Option ℚ) : WithBot ℚ :=
  match x with
  | none => ⊥
  | some q => (q : WithBot ℚ)

/-- Same ordering key for a string column. -/
def wbS (x : Option String) : WithBot String :=
  match x with
  | none => ⊥
  | some s => (s : WithBot String)

/-- Stable descending sort by a key: the model of pandas
`sort_values(ascending=False, na_position=last)` (the key maps a missing
value to the bottom element) and of the ordering inside `nlargest`. -/
def sortByDesc {α β : Type} [LinearOrder β] (key : α → β) (l : List α) : List α :=
  l.insertionSort fun a b => key b ≤ key a

/-- `column.isin(sel)` on one cell: a missing value is never a member. -/
def isinOpt (x : Option String) (sel : List String) : Bool :=
  match x with
  | some v => sel.contains v
  | none => false

/-- The sidebar filter predicate (src/app.py lines 110-113):
`Segmentasi.isin(selected_segmentasi) & Kategori.isin(selected_kategori)`. -/
def memFilter (selSeg selKat : List String) (r : Record) : Bool :=
  isinOpt r.segmentasi selSeg && isinOpt r.kategori selKat

/-- The filter application (src/app.py lines 109-115): only when both
multiselect lists are nonempty (Python truthiness of
`selected_segmentasi and selected_kategori`) is the conjunction applied;
otherwise the whole dataframe is kept. -/
def filterData (df : List Record) (selSeg selKat : List String) : List Record :=
  if !selSeg.isEmpty && !selKat.isEmpty then
    df.filter (memFilter selSeg selKat)
  else
    df

/-- `sorted(df[col].dropna().unique().tolist())` (src/app.py lines 91
and 100): the distinct non-missing values of a string column in
ascending order. -/
def allValues (proj : Record → Option String) (df : List Record) : List String :=
  (df.filterMap proj).dedup.insertionSort (· ≤ ·)

/-- The multiselect options for Segmentasi (line 91). -/
def allSegmentasi (df : List Record) : List String := allValues (·.segmentasi) df

/-- The multiselect options for Kategori (line 100). -/
def allKategori (df : List Record) : List String := allValues (·.kategori) df

/-- `len(df)` on a dataframe. -/
def countRecords (df : List Record) : ℕ := df.length

/-- pandas `Series.sum()` with the default `skipna=True` (line 137):
missing values are skipped, the empty sum is 0. -/
def sumNumeric (val : Record → Option ℚ) (df : List Record) : ℚ :=
  (df.filterMap val).sum

/-- pandas `Series.mean()` with the default `skipna=True` (line 153):
the mean of the non-missing values, or the missing sentinel (pandas NaN,
here `none`) when there is none — no division by zero can occur. -/
def meanNumeric (val : Record → Option ℚ) (df : List Record) : Option ℚ :=
  let vs := df.filterMap val
  if vs.isEmpty then none else some (vs.sum / vs.length)

/-- The `Total_Omset_12Bulan` values of the rows of one `Kategori`
group: `groupby` keeps only rows whose key is non-missing, and the
aggregations over the value column skip its missing values. -/
def groupVals (k : String) (df : List Record) : List ℚ :=
  (df.filter fun r => r.kategori == some k).filterMap (·.omset)

/-- The `mean` aggregate of one group (line 211): pandas NaN (`none`)
for a group with no non-missing value. -/
def groupMeanVal (k : String) (df : List Record) : Option ℚ :=
  let vs := groupVals k df
  if vs.isEmpty then none else some (vs.sum / vs.length)

/-- The `count` aggregate of one group (line 211): the number of
non-missing values of the value column in the group. -/
def groupCount (k : String) (df : List Record) : ℕ := (groupVals k df).length

/-- The group keys produced by `groupby(Kategori)` with its defaults
`dropna=True, sort=True`: the distinct non-missing keys in ascending
order. -/
def groupKeys (df : List Record) : List String :=
  (df.filterMap (·.kategori)).dedup.insertionSort (· ≤ ·)

/-- The derived column `Omset_Miliar = Omset_Rata / 1e9` (line 213). -/
def omsetMiliar (m : Option ℚ) : Option ℚ := m.map fun x => x / 1000000000

/-- The chart-2 dataframe `kategori_omset` (src/app.py lines 211-214):
one row `(Kategori, Omset_Rata, Jumlah_WP)` per group key, rows then
sorted by `Omset_Miliar` descending. -/
def kategoriOmset (df : List Record) : List (String × Option ℚ × ℕ) :=
  sortByDesc (fun e => wbQ (omsetMiliar e.2.1))
    ((groupKeys df).map fun k => (k, groupMeanVal k df, groupCount k df))

/-- `DataFrame.nlargest(n, col)` with the default `keep=first`, before
truncation: the rows (tagged with their original position) in descending
order of the rank column, missing values last, ties and missing values
in original row order. -/
def nlargestRows (val : Record → Option ℚ) (df : List Record) : List (ℕ × Record) :=
  sortByDesc (fun p => wbQ (val p.2)) df.enum

/-- `DataFrame.nlargest(n, col)` with the default `keep=first`
(src/app.py line 321). -/
def nlargest (n : ℕ) (val : Record → Option ℚ) (df : List Record) : List Record :=
  ((nlargestRows val df).take n).map (·.2)

/-- `top_wp = df_filtered.nlargest(min(10, len(df_filtered)), Total_Pajak_12Bulan)`
(line 321). -/
def topWP (df : List Record) : List Record :=
  nlargest (min 10 df.length) (·.pajak) df

/-- The two risk outcomes of the spec's RiskClassifier. -/
inductive Risk where
  | Normal
  | HighRisk
deriving DecidableEq, Repr

/-- Modelled from the spec: the RiskClassifier that produced the CSV's
`Label_Risiko` column runs upstream (PySpark) and is not part of src/;
src/app.py only counts rows already labelled (lines 162-172) and draws
the 9.5 threshold line (line 361).  Following spec section 4.4: HighRisk
exactly when the effectiveness value is present and strictly below the
threshold, Normal otherwise (also when the value is missing). -/
def classifyRisk (r : Record) (thresholdPct : ℚ) : Risk :=
  match r.efektivitas with
  | some e => if e < thresholdPct then .HighRisk else .Normal
  | none => .Normal

/-- The col5 metric `len(df_filtered[Label_Risiko == "Risiko Tinggi"])`
(line 164). -/
def risikoTinggiCount (df : List Record) : ℕ :=
  (df.filter fun r => r.labelRisiko == some "Risiko Tinggi").length

/-- One raw cell of a designated numeric column as it comes out of
`pd.read_csv`: already numeric, a string, or missing. -/
inductive Cell where
  | num (q : ℚ)
  | str (s : String)
  | blank
deriving DecidableEq, Repr

/-- `pd.to_numeric(col, errors=coerce)` on one cell (src/app.py line
66): numbers pass through, a parseable numeric literal is parsed
(modelled here for integer literals), anything else becomes the missing
sentinel.  The function is total: coercion never raises. -/
def coerceCell : Cell → Option ℚ
  | .num q => some q
  | .str s => s.toInt?.map fun z => (z : ℚ)
  | .blank => none

/-- One raw row of the CSV before numeric coercion. -/
structure RawRecord where
  nama : Option String
  kategori : Option String
  segmentasi : Option String
  omset : Cell
  pajak : Cell
  efektivitas : Cell
  labelRisiko : Option String
deriving DecidableEq, Repr

/-- The coercion loop of `load_data` (lines 63-66) applied to one row:
exactly the three designated numeric columns are coerced, the string
columns pass through. -/
def coerceRecord (r : RawRecord) : Record :=
  ⟨r.nama, r.kategori, r.segmentasi,
    coerceCell r.omset, coerceCell r.pajak, coerceCell r.efektivitas,
    r.labelRisiko⟩

/-- The outcome of `load_data` (lines 57-70): a coerced dataframe, or a
surfaced error (the code shows the message via `st.error` and returns
`None`). -/
inductive LoadResult where
  | ok (df : List Record)
  | err (msg : String)
deriving DecidableEq, Repr

/-- `load_data` (src/app.py lines 57-70) over an abstract fetch result:
a single attempt, on success every designated numeric column of every
row is coerced, on failure the human-readable cause is wrapped into the
error message shown to the user. -/
def load_data (fetch : Except String (List RawRecord)) : LoadResult :=
  match fetch with
  | .ok raw => .ok (raw.map coerceRecord)
  | .error e => .err ("Gagal memuat data: " ++ e)

/-- The KPI scalars of the metric row (lines 128, 137, 145, 153)
computed from a loaded dataframe. -/
def kpiViews (df : List Record) : ℕ × ℚ × ℚ × Option ℚ :=
  (countRecords df, sumNumeric (·.omset) df, sumNumeric (·.pajak) df,
    meanNumeric (·.efektivitas) df)

/-- The top of the script (lines 72-75): `df = load_data()`, and
`st.stop()` when it is `None` — on a load failure no pipeline
computation proceeds. -/
def dashboard (fetch : Except String (List RawRecord)) : Option (ℕ × ℚ × ℚ × Option ℚ) :=
  match load_data fetch with
  | .ok df => some (kpiViews df)
  | .err _ => none

/-- Round a rational to an integer, half to even: the rounding of
Python fixed-point formatting, on exact values. -/
def roundHalfEven (q : ℚ) : ℤ :=
  let f := ⌊q⌋
  let r := q - f
  if r < 1 / 2 then f
  else if 1 / 2 < r then f + 1
  else if f % 2 = 0 then f else f + 1

/-- Digits of a non-negative fixed-point value scaled by 100:
`m = 123` renders as `"1.23"`. -/
def fixed2OfNat (m : ℕ) : String :=
  let frac := m % 100
  toString (m / 100) ++ "." ++ (if frac < 10 then "0" ++ toString frac else toString frac)

/-- Python `f"{q:.2f}"` on an exact rational value. -/
def fmtFixed2 (q : ℚ) : String :=
  let m := roundHalfEven (q * 100)
  if m < 0 then "-" ++ fixed2OfNat m.natAbs else fixed2OfNat m.toNat

/-- The table money format (lines 406-411):
`f"Rp {x/1e9:.2f}M" if pd.notna(x) else "-"`. -/
def fmtMoney (x : Option ℚ) : String :=
  match x with
  | some q => "Rp " ++ fmtFixed2 (q / 1000000000) ++ "M"
  | none => "-"

/-- The table effectiveness format (line 414):
`f"{x:.2f}%" if pd.notna(x) else "-"`. -/
def fmtPct (x : Option ℚ) : String :=
  match x with
  | some q => fmtFixed2 q ++ "%"
  | none => "-"

/-- The four `sort_by` choices of the table selectbox (line 385). -/
inductive SortBy where
  | pajak
  | omset
  | efektivitas
  | nama
deriving DecidableEq, Repr

/-- `df_display.sort_values(sort_by, ascending=False, na_position=last)`
(line 402). -/
def sortValues (sb : SortBy) (df : List Record) : List Record :=
  match sb with
  | .pajak => sortByDesc (fun r => wbQ r.pajak) df
  | .omset => sortByDesc (fun r => wbQ r.omset) df
  | .efektivitas => sortByDesc (fun r => wbQ r.efektivitas) df
  | .nama => sortByDesc (fun r => wbS r.nama) df

/-- A small dataframe of already-formatted string cells: its column
names and one field list per record. -/
structure StrFrame where
  cols : List String
  rows : List (List String)
deriving DecidableEq, Repr

/-- `frame.columns = names` (src/app.py line 430): pandas accepts the
assignment only when the name list matches the current column count and
otherwise raises `ValueError: Length mismatch`. -/
def setColumns (names : List String) (f : StrFrame) : Except String StrFrame :=
  if f.cols.length = names.length then
    .ok ⟨names, f.rows⟩
  else
    .error ("Length mismatch: Expected axis has " ++ toString f.cols.length ++
      " elements, new values have " ++ toString names.length ++ " elements")

/-- The outcome of the table/export block (src/app.py lines 396-449),
which runs inside the `try` of line 397: `df_display_final` starts from
the six display columns (line 426) and, when the `Label_Risiko` column
exists, appends it (lines 427-428); the rename of line 430 then assigns
six names to the frame and raises when the column counts differ, the
`except` of line 450 showing the error instead of any output.  After a
successful rename, lines 431-432 append the `Status Risiko` column and
line 443 serialises the frame with `to_csv(index=False)`: the header
row followed by one row per record of the full sorted frame (not of the
25-row on-screen preview); `to_csv` writes a missing string cell as the
empty field and the money and effectiveness columns carry the on-screen
formatting (lines 405-416). -/
def exportCsv (hasLabel : Bool) (sb : SortBy) (df : List Record) :
    Except String (List (List String)) :=
  let sorted := sortValues sb df
  let base : StrFrame :=
    ⟨["NAMA_WP", "Kategori", "Segmentasi", "Omset", "Pajak", "Efektivitas"] ++
        (if hasLabel then ["Label_Risiko"] else []),
      sorted.map fun r =>
        [r.nama.getD "", r.kategori.getD "", r.segmentasi.getD "",
          fmtMoney r.omset, fmtMoney r.pajak, fmtPct r.efektivitas] ++
        (if hasLabel then [r.labelRisiko.getD ""] else [])⟩
  match setColumns ["Nama WP", "Kategori", "Segmentasi", "Omset", "Pajak", "Efektivitas"] base with
  | .error e => .error e
  | .ok f =>
    let f2 : StrFrame :=
      if hasLabel then
        ⟨f.cols ++ ["Status Risiko"],
          (f.rows.zip (sorted.map fun r => r.labelRisiko.getD "")).map fun p => p.1 ++ [p.2]⟩
      else f
    .ok (f2.cols :: f2.rows)

/-! ### Helper lemmas: stability of the sort model -/

/-- Inserting `x` into `l` preserves the tie-break invariant: every pair
that is a tie for the sort relation `r` keeps the auxiliary order `s`,
provided `x` carries `s` into every element it ties with. -/
theorem pairwise_orderedInsert_tie {α : Type} {r : α → α → Prop} [DecidableRel r]
    {s : α → α → Prop} :
    ∀ (l : List α) (x : α),
      l.Pairwise (fun a b => r a b → r b a → s a b) →
      (∀ y ∈ l, r x y → r y x → s x y) →
      (List.orderedInsert r x l).Pairwise fun a b => r a b → r b a → s a b
  | [], x, _, _ => by simp [List.orderedInsert]
  | b :: l, x, hp, hx => by
    rw [List.orderedInsert]
    rcases List.pairwise_cons.mp hp with ⟨hb, hl⟩
    by_cases hrb : r x b
    · rw [if_pos hrb]
      exact List.pairwise_cons.mpr ⟨fun y hy => hx y hy, hp⟩
    · rw [if_neg hrb]
      refine List.pairwise_cons.mpr ⟨?_, ?_⟩
      · intro y hy
        rcases (List.mem_orderedInsert r).mp hy with hyx | hyl
        · subst hyx
          intro _ hxb
          exact absurd hxb hrb
        · exact hb y hyl
      · exact pairwise_orderedInsert_tie l x hl fun y hy => hx y (List.mem_cons_of_mem b hy)

/-- Stability of insertion sort: a pairwise invariant of the shape
"every `r`-tie respects `s`" survives sorting by `r`. -/
theorem pairwise_insertionSort_tie {α : Type} {r : α → α → Prop} [DecidableRel r]
    {s : α → α → Prop} :
    ∀ l : List α,
      l.Pairwise (fun a b => r a b → r b a → s a b) →
      (l.insertionSort r).Pairwise fun a b => r a b → r b a → s a b
  | [], _ => by simp
  | x :: l, hp => by
    rw [List.insertionSort]
    rcases List.pairwise_cons.mp hp with ⟨hx, hl⟩
    exact pairwise_orderedInsert_tie _ x (pairwise_insertionSort_tie l hl)
      fun y hy => hx y ((List.mem_insertionSort r).mp hy)

theorem sortByDesc_perm {α β : Type} [LinearOrder β] (key : α → β) (l : List α) :
    List.Perm (sortByDesc key l) l :=
  List.perm_insertionSort _ l

theorem sortByDesc_length {α β : Type} [LinearOrder β] (key : α → β) (l : List α) :
    (sortByDesc key l).length = l.length :=
  (sortByDesc_perm key l).length_eq

theorem sortByDesc_sorted {α β : Type} [LinearOrder β] (key : α → β) (l : List α) :
    (sortByDesc key l).Pairwise fun a b => key b ≤ key a := by
  haveI : IsTotal α fun a b => key b ≤ key a := ⟨fun a b => le_total (key b) (key a)⟩
  haveI : IsTrans α fun a b => key b ≤ key a := ⟨fun a b c hab hbc => le_trans hbc hab⟩
  exact List.sorted_insertionSort _ l

/-- The full characterisation of the stable descending sort: the output
is descending in the key, and any two key-ties keep every pairwise
invariant `s` of the input list. -/
theorem sortByDesc_spec {α β : Type} [LinearOrder β] (key : α → β) {s : α → α → Prop}
    {l : List α} (h : l.Pairwise s) :
    (sortByDesc key l).Pairwise fun a b => key b ≤ key a ∧ (key a = key b → s a b) := by
  have h1 := sortByDesc_sorted key l
  have h2 : (sortByDesc key l).Pairwise fun a b =>
      (fun a b => key b ≤ key a) a b → (fun a b => key b ≤ key a) b a → s a b :=
    pairwise_insertionSort_tie l (h.imp fun hab => fun _ _ => hab)
  refine (h1.and h2).imp ?_
  rintro a b ⟨hba, htie⟩
  exact ⟨hba, fun heq => htie hba (le_of_eq heq)⟩

/-- Membership in the multiselect options: exactly the values present in
some record of the dataframe. -/
theorem mem_allValues {proj : Record → Option String} {df : List Record} {v : String} :
    v ∈ allValues proj df ↔ ∃ r ∈ df, proj r = some v := by
  unfold allValues
  rw [List.mem_insertionSort, List.mem_dedup, List.mem_filterMap]

/-! ### Claim C1: the risk classifier -/

/-- C1: `classifyRisk` returns `HighRisk` exactly when the record's
effectiveness value is present and strictly below the threshold, and
`Normal` in every other case, including a missing value; in particular,
with the default threshold 9.5, effectiveness 9.0 is `HighRisk` and a
missing effectiveness is `Normal`. -/
theorem classifyRisk_spec :
    (∀ (r : Record) (t : ℚ),
      classifyRisk r t = Risk.HighRisk ↔ ∃ e, r.efektivitas = some e ∧ e < t) ∧
    classifyRisk ⟨none, none, none, none, none, some 9, none⟩ (95 / 10) = Risk.HighRisk ∧
    classifyRisk ⟨none, none, none, none, none, none, none⟩ (95 / 10) = Risk.Normal := by
  refine ⟨fun r t => ?_, by norm_num [classifyRisk], by norm_num [classifyRisk]⟩
  cases hr : r.efektivitas with
  | none => simp [classifyRisk, hr]
  | some e =>
    by_cases hlt : e < t
    · simp [classifyRisk, hr, hlt]
    · simp [classifyRisk, hr, hlt]

/-! ### Claim C2: empty-dataset aggregates -/

/-- C2: for every numeric column, the sum over an empty dataset, or over
a dataset with no non-missing value in that column, is 0; the mean over
an empty dataset is the missing sentinel, never an error or a division
by zero. -/
theorem aggregates_empty_spec :
    ∀ val : Record → Option ℚ,
      sumNumeric val [] = 0 ∧
      (∀ df : List Record, (∀ r ∈ df, val r = none) → sumNumeric val df = 0) ∧
      meanNumeric val [] = none := by
  intro val
  refine ⟨rfl, ?_, rfl⟩
  intro df h
  simp [sumNumeric, List.filterMap_eq_nil_iff.mpr h]

/-- Witness for C2 at the Total_Omset_12Bulan column, the empty dataset
and a one-row dataset whose omset cell is missing. -/
theorem aggregates_empty_witness :
    sumNumeric (·.omset) [] = 0 ∧
    sumNumeric (·.omset) [⟨none, none, none, none, none, none, none⟩] = 0 ∧
    meanNumeric (·.omset) [] = none := by
  obtain ⟨h1, h2, h3⟩ := aggregates_empty_spec (·.omset)
  exact ⟨h1, h2 [⟨none, none, none, none, none, none, none⟩] (by decide), h3⟩

/-! ### Claim C4: the filter is a subset obeying the conjunction -/

/-- C4 counterexample: with selected segments `["S"]` and an empty
category selection, the record is retained even though its category is
not a member of the (empty) selected categories — the claimed
"retained only if both memberships hold" fails as stated for every
selection. -/
theorem filterConjunction_counterexample :
    ¬ ∀ r ∈ filterData [⟨some "WP", some "A", some "S", none, none, none, none⟩] ["S"] [],
        isinOpt r.segmentasi ["S"] = true ∧ isinOpt r.kategori [] = true := by
  decide

/-- C4 amended: `filter(D, F)` is always a subset of `D`; and whenever
both selection lists are nonempty, a record is retained only if its
segment is a member of the selected segments and its category is a
member of the selected categories (conjunction). -/
theorem filterSubset_spec :
    ∀ (df : List Record) (selSeg selKat : List String),
      (∀ r ∈ filterData df selSeg selKat, r ∈ df) ∧
      (selSeg ≠ [] → selKat ≠ [] →
        ∀ r ∈ filterData df selSeg selKat,
          isinOpt r.segmentasi selSeg = true ∧ isinOpt r.kategori selKat = true) := by
  intro df ss sk
  constructor
  · intro r hr
    unfold filterData at hr
    split at hr
    · exact List.mem_of_mem_filter hr
    · exact hr
  · intro hss hsk r hr
    unfold filterData at hr
    rw [if_pos] at hr
    · have hm := List.of_mem_filter hr
      simp only [memFilter, Bool.and_eq_true] at hm
      exact hm
    · rcases ss with _ | ⟨a, ss⟩
      · exact absurd rfl hss
      · rcases sk with _ | ⟨b, sk⟩
        · exact absurd rfl hsk
        · rfl

/-- Witness for C4 at a one-record dataset and the selection
`(["S"], ["A"])`; both hypotheses and the membership are discharged by
computation. -/
theorem filterSubset_witness :
    isinOpt (Record.segmentasi ⟨some "WP", some "A", some "S", none, none, none, none⟩)
        ["S"] = true ∧
    isinOpt (Record.kategori ⟨some "WP", some "A", some "S", none, none, none, none⟩)
        ["A"] = true :=
  (filterSubset_spec [⟨some "WP", some "A", some "S", none, none, none, none⟩] ["S"] ["A"]).2
    (by decide) (by decide)
    ⟨some "WP", some "A", some "S", none, none, none, none⟩ (by decide)

/-! ### Claim C3: the identity filter -/

/-- C3 counterexample: on a dataset containing a record with a missing
Segmentasi value, the filter built from all present values drops that
record (its missing value is in neither multiselect list and `isin`
never matches a missing cell), so the record count is not preserved. -/
theorem identityFilter_counterexample :
    countRecords
        (filterData
          [⟨some "W1", some "A", some "S", none, none, none, none⟩,
            ⟨some "W2", some "A", none, none, none, none, none⟩]
          (allSegmentasi
            [⟨some "W1", some "A", some "S", none, none, none, none⟩,
              ⟨some "W2", some "A", none, none, none, none, none⟩])
          (allKategori
            [⟨some "W1", some "A", some "S", none, none, none, none⟩,
              ⟨some "W2", some "A", none, none, none, none, none⟩])) ≠
      countRecords
        [⟨some "W1", some "A", some "S", none, none, none, none⟩,
          ⟨some "W2", some "A", none, none, none, none, none⟩] := by
  decide

/-- C3 amended: the filter built from all present values preserves the
record count on every dataset in which each record carries a
non-missing Segmentasi and Kategori value. -/
theorem identityFilter_spec :
    ∀ df : List Record,
      (∀ r ∈ df, r.segmentasi.isSome ∧ r.kategori.isSome) →
      countRecords (filterData df (allSegmentasi df) (allKategori df)) = countRecords df := by
  intro df h
  unfold filterData
  split
  · unfold countRecords
    rw [List.filter_eq_self.mpr]
    intro r hr
    obtain ⟨hs, hk⟩ := h r hr
    rcases Option.isSome_iff_exists.mp hs with ⟨s, hseg⟩
    rcases Option.isSome_iff_exists.mp hk with ⟨k, hkat⟩
    have hsmem : s ∈ allSegmentasi df := mem_allValues.mpr ⟨r, hr, hseg⟩
    have hkmem : k ∈ allKategori df := mem_allValues.mpr ⟨r, hr, hkat⟩
    unfold memFilter isinOpt
    rw [hseg, hkat]
    simp only [Bool.and_eq_true]
    exact ⟨List.elem_iff.mpr hsmem, List.elem_iff.mpr hkmem⟩
  · rfl

/-- Witness for C3 on a one-record dataset with both filter columns
present. -/
theorem identityFilter_witness :
    countRecords
        (filterData [⟨some "W", some "A", some "S", none, none, none, none⟩]
          (allSegmentasi [⟨some "W", some "A", some "S", none, none, none, none⟩])
          (allKategori [⟨some "W", some "A", some "S", none, none, none, none⟩])) =
      countRecords [⟨some "W", some "A", some "S", none, none, none, none⟩] :=
  identityFilter_spec [⟨some "W", some "A", some "S", none, none, none, none⟩] (by decide)

/-! ### Claim C9: the loader -/

/-- C9: `load_data` either returns a dataset in which the three
designated numeric columns of every row are the (total, never-raising)
coercion of the raw cells, or, on a fetch/parse failure, surfaces an
error carrying the human-readable cause — and in that case the pipeline
computes nothing further. -/
theorem load_spec :
    ∀ fetch : Except String (List RawRecord),
      (∀ e, fetch = .error e →
        load_data fetch = .err ("Gagal memuat data: " ++ e) ∧ dashboard fetch = none) ∧
      (∀ raw, fetch = .ok raw →
        load_data fetch = .ok (raw.map coerceRecord) ∧
        dashboard fetch = some (kpiViews (raw.map coerceRecord)) ∧
        ∀ r ∈ raw.map coerceRecord, ∃ q ∈ raw,
          r.omset = coerceCell q.omset ∧ r.pajak = coerceCell q.pajak ∧
          r.efektivitas = coerceCell q.efektivitas ∧ r.nama = q.nama) := by
  intro fetch
  constructor
  · intro e he
    subst he
    exact ⟨rfl, rfl⟩
  · intro raw hr
    subst hr
    refine ⟨rfl, rfl, ?_⟩
    intro r hr
    rcases List.mem_map.mp hr with ⟨q, hq, rfl⟩
    exact ⟨q, hq, rfl, rfl, rfl, rfl⟩

/-- Witness for C9: a failed fetch produces the surfaced message and a
halted pipeline; a successful one-row fetch coerces the blank omset cell
to the missing sentinel. -/
theorem load_witness :
    (load_data (Except.error "timeout") = .err ("Gagal memuat data: " ++ "timeout") ∧
      dashboard (Except.error "timeout") = none) ∧
    load_data (Except.ok [⟨some "W", none, none, Cell.blank, Cell.num 2, Cell.blank, none⟩]) =
      .ok [⟨some "W", none, none, none, some 2, none, none⟩] :=
  ⟨(load_spec (Except.error "timeout")).1 "timeout" rfl,
    ((load_spec (Except.ok [⟨some "W", none, none, Cell.blank, Cell.num 2, Cell.blank, none⟩])).2
      [⟨some "W", none, none, Cell.blank, Cell.num 2, Cell.blank, none⟩] rfl).1.trans
      (by decide)⟩

/-! ### Claim C5: the top-N ranking -/

/-- C5: `nlargest` is a deterministic stable selection: its rows are in
descending order of the rank column (a missing rank ordering below every
value, hence placed last) with ties broken by original row order; and
for `n ≥ |D|` it returns all records of `D` sorted descending. -/
theorem topN_spec :
    ∀ (val : Record → Option ℚ) (df : List Record) (n : ℕ),
      ((nlargestRows val df).take n).Pairwise
        (fun a b => wbQ (val b.2) ≤ wbQ (val a.2) ∧
          (wbQ (val a.2) = wbQ (val b.2) → a.1 < b.1)) ∧
      (df.length ≤ n →
        List.Perm (nlargest n val df) df ∧
        (nlargest n val df).Pairwise fun a b => wbQ (val b) ≤ wbQ (val a)) := by
  intro val df n
  have hidx : df.enum.Pairwise fun a b => a.1 < b.1 := by
    have h := List.pairwise_lt_range df.length
    rw [← List.enum_map_fst] at h
    exact List.pairwise_map.mp h
  have hspec := sortByDesc_spec (fun p => wbQ (val p.2)) hidx
  constructor
  · exact List.Pairwise.sublist (List.take_sublist n _) hspec
  · intro hn
    have hlen : (nlargestRows val df).length = df.length := by
      unfold nlargestRows
      rw [sortByDesc_length, List.enum_length]
    have htake : (nlargestRows val df).take n = nlargestRows val df :=
      List.take_of_length_le (by rw [hlen]; exact hn)
    constructor
    · unfold nlargest
      rw [htake]
      have hperm : List.Perm (nlargestRows val df) df.enum := sortByDesc_perm _ _
      have h2 := hperm.map Prod.snd
      rw [List.enum_map_snd] at h2
      exact h2
    · unfold nlargest
      rw [htake]
      exact List.pairwise_map.mpr (hspec.imp fun h => h.1)

/-- Witness for C5: a two-row dataset, one of the two pajak values
missing, with n = 2 ≥ |D|; the ranking returns all records. -/
theorem topN_witness :
    List.Perm
      (nlargest 2 (fun r => r.pajak)
        [⟨some "W1", none, none, none, some 5, none, none⟩,
          ⟨some "W2", none, none, none, none, none, none⟩])
      [⟨some "W1", none, none, none, some 5, none, none⟩,
        ⟨some "W2", none, none, none, none, none, none⟩] :=
  ((topN_spec (fun r => r.pajak)
      [⟨some "W1", none, none, none, some 5, none, none⟩,
        ⟨some "W2", none, none, none, none, none, none⟩] 2).2 (by decide)).1

/-! ### Claim C6: groups versus records -/

/-- Counting the rows that survive the group filter and the value
dropna, as a single `countP` over the dataframe. -/
theorem length_filterMap_omset_filter (p : Record → Bool) :
    ∀ df : List Record,
      ((df.filter p).filterMap (·.omset)).length =
        df.countP fun r => p r && r.omset.isSome
  | [] => rfl
  | r :: df => by
    by_cases hp : p r
    · cases ho : r.omset with
      | none =>
        simp [List.filter_cons, hp, List.filterMap_cons, ho, List.countP_cons,
          length_filterMap_omset_filter p df]
      | some q =>
        simp [List.filter_cons, hp, List.filterMap_cons, ho, List.countP_cons,
          length_filterMap_omset_filter p df]
    · simp [List.filter_cons, hp, List.countP_cons, length_filterMap_omset_filter p df]

/-- The `count` aggregate of a group as a `countP` over the whole
dataframe. -/
theorem groupCount_eq_countP (k : String) (df : List Record) :
    groupCount k df = df.countP fun r => (r.kategori == some k) && r.omset.isSome :=
  length_filterMap_omset_filter _ df

theorem sum_map_add_nat {γ : Type} (K : List γ) (f g : γ → ℕ) :
    (K.map fun k => f k + g k).sum = (K.map f).sum + (K.map g).sum := by
  induction K with
  | nil => rfl
  | cons a K ih =>
    simp only [List.map_cons, List.sum_cons, ih]
    omega

theorem sum_map_indicator (K : List String) (k0 : String) :
    (K.map fun k => if k0 = k then 1 else 0).sum = K.count k0 := by
  induction K with
  | nil => rfl
  | cons a K ih =>
    by_cases h : k0 = a
    · subst h
      simp [List.count_cons, ih]
      omega
    · simp [List.count_cons, h, ih, Ne.symm h]

/-- Summing the per-group counts over any duplicate-free key list that
covers every present key yields the number of rows with both the key and
the value present. -/
theorem sum_counts_over_keys :
    ∀ (df : List Record) (K : List String), K.Nodup →
      (∀ r ∈ df, ∀ k, r.kategori = some k → k ∈ K) →
      (K.map fun k => df.countP fun r => (r.kategori == some k) && r.omset.isSome).sum =
        df.countP fun r => r.kategori.isSome && r.omset.isSome
  | [], K, _, _ => by simp
  | r :: df, K, hnd, hcov => by
    have ih := sum_counts_over_keys df K hnd fun q hq => hcov q (List.mem_cons_of_mem r hq)
    simp only [List.countP_cons]
    rw [sum_map_add_nat, ih]
    congr 1
    cases hkat : r.kategori with
    | none => simp
    | some k0 =>
      by_cases homs : r.omset.isSome
      · have hk0 : k0 ∈ K := hcov r (List.mem_cons_self r df) k0 hkat
        have hmap : (K.map fun k =>
            if ((some k0 == some k) && r.omset.isSome : Bool) = true then 1 else 0) =
            K.map fun k => if k0 = k then 1 else 0 := by
          refine List.map_congr_left fun k _ => ?_
          simp [homs]
        simp only [hmap, sum_map_indicator]
        rw [List.count_eq_one_of_mem hnd hk0]
        simp [homs]
      · simp [homs]

/-- C6 counterexample: a one-record dataset whose record has a category
but a missing omset value; the only group has `count` 0 (the aggregation
counts non-missing values, not rows), so the per-group counts do not sum
to the record count. -/
theorem groupPartition_counterexample :
    ¬ (((kategoriOmset [⟨some "W", some "A", some "S", none, none, none, none⟩]).map
          fun e => e.2.2).sum =
        countRecords [⟨some "W", some "A", some "S", none, none, none, none⟩]) := by
  decide

/-- C6 amended: every record with a present group key belongs to exactly
one output group (its key appears exactly once among the output keys),
and the per-group counts sum to the number of records with both the
group key and the omset value present. -/
theorem groupPartition_spec :
    ∀ df : List Record,
      (∀ r ∈ df, ∀ k, r.kategori = some k →
        ((kategoriOmset df).map fun e => e.1).count k = 1) ∧
      ((kategoriOmset df).map fun e => e.2.2).sum =
        (df.filter fun r => r.kategori.isSome && r.omset.isSome).length := by
  intro df
  have hperm : List.Perm (kategoriOmset df)
      ((groupKeys df).map fun k => (k, groupMeanVal k df, groupCount k df)) :=
    sortByDesc_perm _ _
  have hkeys : List.Perm (groupKeys df) (df.filterMap (·.kategori)).dedup :=
    List.perm_insertionSort _ _
  have hnd : (df.filterMap (·.kategori)).dedup.Nodup := List.nodup_dedup _
  have hfst : (((groupKeys df).map fun k =>
      (k, groupMeanVal k df, groupCount k df)).map fun e => e.1) = groupKeys df := by
    rw [List.map_map]
    exact List.map_id _
  constructor
  · intro r hr k hk
    have hmem : k ∈ (df.filterMap (·.kategori)).dedup :=
      List.mem_dedup.mpr (List.mem_filterMap.mpr ⟨r, hr, hk⟩)
    rw [(hperm.map fun e => e.1).count_eq, hfst, hkeys.count_eq]
    exact List.count_eq_one_of_mem hnd hmem
  · have hsnd : (((groupKeys df).map fun k =>
        (k, groupMeanVal k df, groupCount k df)).map fun e => e.2.2) =
        (groupKeys df).map fun k => groupCount k df := by
      rw [List.map_map]
      rfl
    rw [(hperm.map fun e => e.2.2).sum_eq, hsnd, (hkeys.map fun k => groupCount k df).sum_eq]
    simp only [groupCount_eq_countP]
    rw [sum_counts_over_keys df _ hnd
      fun r hr k hk => List.mem_dedup.mpr (List.mem_filterMap.mpr ⟨r, hr, hk⟩)]
    exact List.countP_eq_length_filter _ _

/-- Witness for C6 on a one-record dataset with a present key: its key
appears exactly once among the output groups. -/
theorem groupPartition_witness :
    ((kategoriOmset [⟨some "W", some "A", some "S", some 3, none, none, none⟩]).map
        fun e => e.1).count "A" = 1 :=
  (groupPartition_spec [⟨some "W", some "A", some "S", some 3, none, none, none⟩]).1
    ⟨some "W", some "A", some "S", some 3, none, none, none⟩
    (List.mem_singleton.mpr rfl) "A" rfl

/-! ### Claim C7: order of the group-mean output -/

/-- Scaling the mean to billions does not change the sort order: the
ordering key of `Omset_Miliar` reflects the ordering of the means. -/
theorem wbQ_miliar_le {a b : Option ℚ} :
    wbQ (omsetMiliar a) ≤ wbQ (omsetMiliar b) → wbQ a ≤ wbQ b := by
  cases a with
  | none => intro _; exact bot_le
  | some qa =>
    cases b with
    | none =>
      intro h
      exact absurd h (WithBot.not_coe_le_bot _)
    | some qb =>
      intro h
      have h2 : (qa / 1000000000 : ℚ) ≤ qb / 1000000000 := WithBot.coe_le_coe.mp h
      exact WithBot.coe_le_coe.mpr (by linarith)

/-- C7: `groupMean` has one entry per distinct present group value, its
entries are ordered by mean descending (a group whose mean is the
missing sentinel ordering below every number, hence last), and ties on
the mean keep the ascending lexical order of the group keys, so the
output sequence is fully determined. -/
theorem groupMeanOrder_spec :
    ∀ df : List Record,
      List.Perm ((kategoriOmset df).map fun e => e.1) (df.filterMap (·.kategori)).dedup ∧
      (kategoriOmset df).Pairwise fun e1 e2 =>
        wbQ e2.2.1 ≤ wbQ e1.2.1 ∧ (e1.2.1 = e2.2.1 → e1.1 < e2.1) := by
  intro df
  have hkeys : List.Perm (groupKeys df) (df.filterMap (·.kategori)).dedup :=
    List.perm_insertionSort _ _
  have hfst : (((groupKeys df).map fun k =>
      (k, groupMeanVal k df, groupCount k df)).map fun e => e.1) = groupKeys df := by
    rw [List.map_map]
    exact List.map_id _
  constructor
  · have hperm := (sortByDesc_perm (fun e => wbQ (omsetMiliar e.2.1))
      ((groupKeys df).map fun k => (k, groupMeanVal k df, groupCount k df))).map
      fun e => e.1
    rw [hfst] at hperm
    exact hperm.trans hkeys
  · have hsorted : (groupKeys df).Pairwise (· ≤ ·) := List.sorted_insertionSort _ _
    have hndk : (groupKeys df).Pairwise (· ≠ ·) := hkeys.nodup_iff.mpr (List.nodup_dedup _)
    have hlt : (groupKeys df).Pairwise (· < ·) :=
      (hsorted.and hndk).imp fun h => lt_of_le_of_ne h.1 h.2
    have hent : ((groupKeys df).map fun k =>
        (k, groupMeanVal k df, groupCount k df)).Pairwise fun e1 e2 => e1.1 < e2.1 :=
      List.pairwise_map.mpr hlt
    have hspec := sortByDesc_spec (fun e => wbQ (omsetMiliar e.2.1)) hent
    refine hspec.imp ?_
    rintro e1 e2 ⟨hle, htie⟩
    exact ⟨wbQ_miliar_le hle,
      fun heq => htie (congrArg (fun m => wbQ (omsetMiliar m)) heq)⟩

/-! ### Claim C8: the CSV export round-trip -/

/-- The table sort is a permutation of the filtered dataframe. -/
theorem sortValues_perm (sb : SortBy) (df : List Record) :
    List.Perm (sortValues sb df) df := by
  cases sb <;> exact sortByDesc_perm _ _

/-- C8: the round-trip is the evident intent (the code even re-adds the
label column as `Status Risiko` for after the rename), but whenever the
`Label_Risiko` column is present the rename of line 430 assigns six
names to the seven-column `df_display_final`, so the block raises
`ValueError: Length mismatch`, the `except` of line 450 shows an error,
and no table and no CSV are produced at all; the export therefore fails
the claimed round-trip on every labelled dataset.  Without the label
column the export succeeds and its data rows do reproduce the record
count and the identifier set of the filtered input. -/
theorem csvRoundTrip_bug :
    ∀ (sb : SortBy) (df : List Record),
      exportCsv true sb df =
        .error "Length mismatch: Expected axis has 7 elements, new values have 6 elements" ∧
      ∃ rows, exportCsv false sb df = .ok rows ∧
        rows.tail.length = countRecords df ∧
        ∀ s : String,
          (s ∈ rows.tail.map fun row => row.headD "") ↔
            s ∈ df.map fun r => r.nama.getD "" := by
  intro sb df
  have hok : exportCsv false sb df =
      .ok (["Nama WP", "Kategori", "Segmentasi", "Omset", "Pajak", "Efektivitas"] ::
        (sortValues sb df).map fun r =>
          [r.nama.getD "", r.kategori.getD "", r.segmentasi.getD "",
            fmtMoney r.omset, fmtMoney r.pajak, fmtPct r.efektivitas]) := rfl
  constructor
  · unfold exportCsv setColumns
    norm_num
    rfl
  · refine ⟨_, hok, ?_, ?_⟩
    · show ((sortValues sb df).map fun r =>
          [r.nama.getD "", r.kategori.getD "", r.segmentasi.getD "",
            fmtMoney r.omset, fmtMoney r.pajak, fmtPct r.efektivitas]).length =
        countRecords df
      rw [List.length_map]
      exact (sortValues_perm sb df).length_eq
    · intro s
      show (s ∈ ((sortValues sb df).map fun r =>
            [r.nama.getD "", r.kategori.getD "", r.segmentasi.getD "",
              fmtMoney r.omset, fmtMoney r.pajak, fmtPct r.efektivitas]).map
            fun row => row.headD "") ↔
          s ∈ df.map fun r => r.nama.getD ""
      rw [List.map_map]
      have hcomp : ((fun row => List.headD row "") ∘ fun r : Record =>
          [r.nama.getD "", r.kategori.getD "", r.segmentasi.getD "",
            fmtMoney r.omset, fmtMoney r.pajak, fmtPct r.efektivitas]) =
          fun r : Record => r.nama.getD "" := by
        funext r
        rfl
      rw [hcomp]
      exact ((sortValues_perm sb df).map fun r => r.nama.getD "").mem_iff

/-! ### Claim C10: empty selection disables the whole filter -/

/-- C10: if either selection list is empty the filter returns the whole
dataset unchanged, ignoring the other — possibly nonempty — selection
list. -/
theorem emptySelection_spec :
    ∀ (df : List Record) (selSeg selKat : List String),
      selSeg = [] ∨ selKat = [] → filterData df selSeg selKat = df := by
  intro df ss sk h
  unfold filterData
  rcases h with rfl | rfl
  · simp
  · simp

/-- Witness for C10: an empty segment selection together with a nonempty
category selection that the record does not match; the record is kept
anyway. -/
theorem emptySelection_witness :
    filterData [⟨some "WP", some "A", some "S", none, none, none, none⟩] [] ["Z"] =
      [⟨some "WP", some "A", some "S", none, none, none, none⟩] :=
  emptySelection_spec [⟨some "WP", some "A", some "S", none, none, none, none⟩] [] ["Z"]
    (Or.inl rfl)

end Dashboard
